import Mathlib

/-!
# Verification of the PyScaffold action pipeline (`pyscaffold/actions.py`)

This file gives a shallow embedding of the action-pipeline module of the
repository and proves the spec claims about it.

Modelling conventions:
* Python dictionaries (the options map and the project structure) become
  association lists `List (String × Value)` with first-match lookup;
  `dict.setdefault` appends at the end when the key is absent, matching
  CPython insertion-order semantics.
* Python exceptions become the `Err` inductive; fallible code returns
  `Except Err α`.  `opts["k"]` on a missing key is `Err.keyError`.
* External collaborators that live in other modules of the repository
  (`info`, `repo`, `structure`, `update`) are supplied by an `Env` record
  of oracles; the actions of `actions.py` are translated literally against
  that record.
* Helpers from `pyscaffold.identification` are not part of the given
  sources and are modelled from the spec (marked in their doc comments).
-/

/-- Split a character list at every occurrence of `c` (semantics of
`str.split(c)` for a one-character separator; structurally recursive so
that proofs can evaluate it). -/
def splitOnCharAux (c : Char) : List Char → List Char → List (List Char)
  | [], acc => [acc.reverse]
  | x :: xs, acc =>
    if x = c then acc.reverse :: splitOnCharAux c xs []
    else splitOnCharAux c xs (x :: acc)

/-- Split a string at every occurrence of the character `c`. -/
def splitOnChar (c : Char) (s : String) : List String :=
  (splitOnCharAux c s.toList []).map String.mk

/-- Join path components with `/` separators. -/
def joinSlash : List String → String
  | [] => ""
  | [x] => x
  | x :: xs => x ++ "/" ++ joinSlash xs

/-- Parse a decimal digit string (semantics of `str.toNat?`:
non-empty, digits only). -/
def strToNat? (s : String) : Option Nat :=
  match s.toList with
  | [] => Option.none
  | l =>
    l.foldl
      (fun acc c =>
        match acc with
        | Option.none => Option.none
        | some n => if c.isDigit then some (n * 10 + (c.toNat - 48)) else Option.none)
      (some 0)

/-- A `pathlib.Path` value: an absolute-path flag plus the list of
path components, with empty components and `"."` components removed,
as `pathlib` does for POSIX paths (`Path(".")` has no components). -/
structure PyPath where
  absolute : Bool
  parts : List String
deriving DecidableEq, Repr

/-- Parse a string into a `PyPath`, following `pathlib.PurePosixPath`:
a leading slash makes the path absolute, empty components and single-dot
components are dropped. -/
def PyPath.parse (s : String) : PyPath :=
  { absolute := match s.toList with
      | c :: _ => c = '/'
      | [] => false
    parts := (splitOnChar '/' s).filter (fun c => c ≠ "" && c ≠ ".") }

/-- `Path.name`: the final path component, `""` for paths ending at the
root, at `"."`, or at `".."` (as in `pathlib`). -/
def PyPath.name (p : PyPath) : String :=
  let n := p.parts.getLast?.getD ""
  if n = ".." then "" else n

/-- `str(path)` for a POSIX path. -/
def PyPath.toStr (p : PyPath) : String :=
  if p.absolute then "/" ++ joinSlash p.parts
  else if p.parts.isEmpty then "." else joinSlash p.parts

/-- Python runtime values that can appear in the options map.
`extension name args` models an extension object as seen by
`get_default_options` (its `.name` and `.args` attributes); a Python
`None` payload is `Value.none`. -/
inductive Value where
  | str : String → Value
  | bool : Bool → Value
  | int : Int → Value
  | path : PyPath → Value
  | none : Value
  | list : List Value → Value
  | dict : List (String × Value) → Value
  | extension : String → Value → Value

/-- Python truthiness (`bool(v)`): empty strings/containers, `False`,
`0` and `None` are falsy, everything else is truthy. -/
def Value.truthy : Value → Bool
  | .str s => !s.isEmpty
  | .bool b => b
  | .int n => decide (n ≠ 0)
  | .path _ => true
  | .none => false
  | .list l => !l.isEmpty
  | .dict d => !d.isEmpty
  | .extension _ _ => true

/-- `str(v)`.  Faithful for the scalar values the pipeline converts to
strings (`project_path` is a string or a `Path`); container renderings
are placeholders, never relied upon by any theorem. -/
def Value.pyStr : Value → String
  | .str s => s
  | .bool b => if b then "True" else "False"
  | .int n => toString n
  | .path p => p.toStr
  | .none => "None"
  | .list _ => "<list>"
  | .dict _ => "<dict>"
  | .extension n _ => "<extension " ++ n ++ ">"

/-- `repr(v)` as used in the `InvalidIdentifier` message (only the
string case is ever rendered by the code under verification). -/
def Value.pyRepr : Value → String
  | .str s => "\x27" ++ s ++ "\x27"
  | v => v.pyStr

/-- Python exceptions raised (directly or by collaborators) in
`pyscaffold.actions`. -/
inductive Err where
  | directoryAlreadyExists (msg : String)
  | directoryDoesNotExist (msg : String)
  | gitDirtyWorkspace
  | invalidIdentifier (msg : String)
  | keyError (key : String)
  | typeError (msg : String)
  | attributeError (msg : String)
  | valueError (msg : String)
  | orderingError (msg : String)
  | gitNotInstalled
  | gitNotConfigured
  | collaborator (msg : String)
deriving DecidableEq, Repr

/-- The options dictionary (`ScaffoldOpts`): insertion-ordered
string-keyed mapping. -/
abbrev Opts := List (String × Value)

/-- The project representation (`Structure`): a string-keyed dict,
threaded opaquely by the actions verified here. -/
abbrev Structure := List (String × Value)

/-- `d.get(k)` / `k in d`: first-match lookup. -/
def getKey : Opts → String → Option Value
  | [], _ => Option.none
  | (k, v) :: rest, key => if k = key then some v else getKey rest key

/-- `d.get(k, default)`. -/
def getKeyD (o : Opts) (key : String) (dflt : Value) : Value :=
  (getKey o key).getD dflt

/-- `d[k] = v`: overwrite in place if present (keeping position),
append otherwise — CPython dict insertion-order semantics. -/
def setKey : Opts → String → Value → Opts
  | [], key, val => [(key, val)]
  | (k, v) :: rest, key, val =>
    if k = key then (k, val) :: rest else (k, v) :: setKey rest key val

/-- `d.setdefault(k, v)` (the returned value is discarded by all call
sites in `actions.py`, so only the updated dict is modelled). -/
def setDefault (o : Opts) (key : String) (val : Value) : Opts :=
  match getKey o key with
  | some _ => o
  | Option.none => o ++ [(key, val)]

@[simp] theorem getKey_nil (key : String) : getKey [] key = Option.none := rfl

theorem getKey_cons (k : String) (v : Value) (rest : Opts) (key : String) :
    getKey ((k, v) :: rest) key = if k = key then some v else getKey rest key := rfl

@[simp] theorem getKey_setKey_self (o : Opts) (key : String) (val : Value) :
    getKey (setKey o key val) key = some val := by
  induction o with
  | nil => simp [setKey, getKey]
  | cons hd tl ih =>
    obtain ⟨k, v⟩ := hd
    by_cases hk : k = key <;> simp [setKey, getKey, hk, ih]

@[simp] theorem getKey_setKey_ne (o : Opts) (key key' : String) (val : Value)
    (h : key' ≠ key) : getKey (setKey o key val) key' = getKey o key' := by
  have h' : ¬ (key = key') := fun hq => h hq.symm
  induction o with
  | nil => simp [setKey, getKey, h']
  | cons hd tl ih =>
    obtain ⟨k, v⟩ := hd
    by_cases hk : k = key
    · subst hk
      simp [setKey, getKey, h']
    · simp [setKey, getKey, hk, ih]

theorem getKey_append (o₁ o₂ : Opts) (key : String) :
    getKey (o₁ ++ o₂) key = ((getKey o₁ key).orElse (fun _ => getKey o₂ key)) := by
  induction o₁ with
  | nil => simp [getKey]
  | cons hd tl ih =>
    obtain ⟨k, v⟩ := hd
    by_cases hk : k = key <;> simp [getKey, hk, ih]

@[simp] theorem getKey_setDefault_self (o : Opts) (key : String) (val : Value) :
    getKey (setDefault o key val) key = some ((getKey o key).getD val) := by
  unfold setDefault
  cases h : getKey o key with
  | none => simp [getKey_append, h, getKey]
  | some v₀ => simp [h]

@[simp] theorem getKey_setDefault_ne (o : Opts) (key key' : String) (val : Value)
    (h : key' ≠ key) : getKey (setDefault o key val) key' = getKey o key' := by
  have h' : ¬ (key = key') := fun hq => h hq.symm
  unfold setDefault
  cases hk : getKey o key with
  | none =>
    rw [getKey_append]
    cases hx : getKey o key' <;> simp [Option.orElse, getKey, h']
  | some v₀ => rfl

/-- Any present binding survives `setdefault` (for the defaulted key it
is kept by definition; for other keys `setdefault` never touches them). -/
theorem setDefault_keeps (o : Opts) (key : String) (val : Value) (key' : String)
    (w : Value) (h : getKey o key' = some w) :
    getKey (setDefault o key val) key' = some w := by
  by_cases hk : key' = key
  · subst hk
    rw [getKey_setDefault_self, h]
    rfl
  · rw [getKey_setDefault_ne o key key' val hk, h]

/-! ## Collaborators modelled from the spec (`pyscaffold.identification`,
stdlib date parsing) -/

/-- The Python reserved words, for the identifier-validity predicate. -/
def pythonKeywords : List String :=
  ["False", "None", "True", "and", "as", "assert", "async", "await",
   "break", "class", "continue", "def", "del", "elif", "else", "except",
   "finally", "for", "from", "global", "if", "import", "in", "is",
   "lambda", "nonlocal", "not", "or", "pass", "raise", "return", "try",
   "while", "with", "yield"]

/-- Characters allowed at the start of an identifier. -/
def isIdentStart (c : Char) : Bool := c.isAlpha || c = '_'

/-- Characters allowed after the first character of an identifier. -/
def isIdentChar (c : Char) : Bool := c.isAlphanum || c = '_'

/-- Modelled from the spec: `pyscaffold.identification.is_valid_identifier`
(not part of the given sources).  True iff the value is a non-empty
string matching the identifier grammar (letter or underscore followed by
letters, digits or underscores) and not a reserved word. -/
def is_valid_identifier_str (s : String) : Bool :=
  match s.toList with
  | [] => false
  | c :: cs => isIdentStart c && cs.all isIdentChar && !(pythonKeywords.contains s)

/-- `is_valid_identifier` applied to a runtime value: only strings can
be valid identifiers. -/
def is_valid_identifier : Value → Bool
  | .str s => is_valid_identifier_str s
  | _ => false

/-- Modelled from the spec: `pyscaffold.identification.make_valid_identifier`
(not part of the given sources).  Best-effort, deterministic transform:
lower-case, turn dashes and spaces into underscores, strip the remaining
invalid characters, and prefix an underscore when the result starts with
a digit. -/
def make_valid_identifier (v : Value) : String :=
  let s := String.mk ((v.pyStr).toList.map Char.toLower)
  let s := String.mk (s.toList.map (fun c => if c = '-' || c = ' ' then '_' else c))
  let s := String.mk (s.toList.filter isIdentChar)
  match s.toList with
  | [] => s
  | c :: _ => if c.isDigit then "_" ++ s else s

/-- Modelled from the spec: `pyscaffold.identification.get_id`, the
module-qualified display identifier of an action, used only for
logging. -/
def get_id_str (modName funcName : String) : String := modName ++ "." ++ funcName

/-- `datetime.strptime(s, "%Y-%m-%d").year`: accepts `YYYY-MM-DD`
(month and day may use one or two digits) and yields the year;
anything else raises `ValueError`. -/
def strptimeYear (s : String) : Except Err Int :=
  match splitOnChar '-' s with
  | [y, m, d] =>
    match strToNat? y, strToNat? m, strToNat? d with
    | some yn, some mn, some dn =>
      if y.length ≤ 4 && m.length ≤ 2 && d.length ≤ 2
          && 1 ≤ mn && mn ≤ 12 && 1 ≤ dn && dn ≤ 31 then
        Except.ok (Int.ofNat yn)
      else Except.error (Err.valueError ("time data " ++ s ++ " does not match format"))
    | _, _, _ => Except.error (Err.valueError ("time data " ++ s ++ " does not match format"))
  | _ => Except.error (Err.valueError ("time data " ++ s ++ " does not match format"))

/-- `os.sep`-stripping: `str.rstrip(os.sep)` on a POSIX system removes
trailing forward slashes. -/
def rstripSlash (s : String) : String :=
  String.mk ((s.toList.reverse.dropWhile (fun c => c = '/')).reverse)

/-- `"=" * len(name) + "\n" + name + "\n" + "=" * len(name)`:
the title banner derived in `get_default_options`. -/
def mkTitle (nm : String) : String :=
  let bar := String.mk (List.replicate nm.length '=')
  bar ++ "\n" ++ nm ++ "\n" ++ bar

/-! ## The environment of external collaborators

`actions.py` calls into `pyscaffold.info`, `pyscaffold.repo`,
`pyscaffold.structure`, `pyscaffold.update` and the filesystem; those
modules are outside the verified source and enter as oracles. -/

/-- Oracles for the external collaborators consumed by the actions. -/
structure Env where
  /-- `info.check_git()`: raises when git is missing or unconfigured. -/
  check_git : Except Err Unit
  /-- `info.username()`. -/
  username : String
  /-- `info.email()`. -/
  email : String
  /-- `date.today().strftime("%Y-%m-%d")`. -/
  today : String
  /-- `info.is_git_workspace_clean(path)`. -/
  is_git_workspace_clean : Value → Bool
  /-- `path.exists()` for the project path. -/
  path_exists : PyPath → Bool
  /-- `repo.is_git_repo(path)`. -/
  is_git_repo : Value → Bool
  /-- `repo.init_commit_repo(path, struct, log=True, pretend=...)`. -/
  init_commit_repo : Value → Structure → Value → Except Err Unit
  /-- `structure.define_structure` (external action). -/
  define_structure : Structure → Opts → Except Err (Structure × Opts)
  /-- `update.version_migration` (external action). -/
  version_migration : Structure → Opts → Except Err (Structure × Opts)
  /-- `structure.create_structure` (external action). -/
  create_structure : Structure → Opts → Except Err (Structure × Opts)
  /-- Semantics of extension-contributed actions, by identifier. -/
  custom_action : String → Structure → Opts → Except Err (Structure × Opts)

/-! ## Helpers for `get_default_options`'s cli-params block -/

/-- `d.get(k, default)` on a `Value`: attribute error unless the value
is a dict (mirrors calling `.get` on `opts.get("cli_params", {})`). -/
def dictGet : Value → String → Value → Except Err Value
  | .dict d, key, dflt => Except.ok (getKeyD d key dflt)
  | _, _, _ => Except.error (Err.attributeError "object has no attribute get")

/-- Insert a string into a set modelled as a duplicate-free list in
insertion order (Python `set.add`; iteration order abstracted to
insertion order). -/
def addIfAbsent (l : List String) (x : String) : List String :=
  if l.contains x then l else l ++ [x]

/-- `set(iterable)` over the saved cli extension names: every element
must be a string. -/
def toStrSet (l : List Value) : Except Err (List String) :=
  l.foldlM
    (fun acc v =>
      match v with
      | Value.str s => Except.ok (addIfAbsent acc s)
      | _ => Except.error (Err.typeError "unhashable or non-string extension name"))
    []

/-- `args[key] = val`: item assignment, only dicts support it. -/
def setItem : Value → String → Value → Except Err Value
  | .dict d, key, val => Except.ok (.dict (setKey d key val))
  | _, _, _ => Except.error (Err.typeError "object does not support item assignment")

/-- The `for extension in opts["extensions"]` loop of
`get_default_options`: collect each extension name into the set and, for
extensions whose `args` is not `None`, record the args under the name. -/
def collectCliParams : List Value → List String → Value → Except Err (List String × Value)
  | [], names, args => Except.ok (names, args)
  | v :: rest, names, args =>
    match v with
    | Value.extension n a =>
      let names := addIfAbsent names n
      match a with
      | Value.none => collectCliParams rest names args
      | _ =>
        match setItem args n a with
        | Except.ok args => collectCliParams rest names args
        | Except.error e => Except.error e
    | _ => Except.error (Err.attributeError "object has no attribute name")

/-! ## The default actions (`actions.py`, lines 91–236) -/

/-- `get_default_options(struct, opts)` (lines 91–153): checks git, sets
the normalized `project_path`, fills every derivable option with
`setdefault`, and rebuilds the `cli_params` record. -/
def get_default_options (env : Env) (struct : Structure) (opts : Opts) :
    Except Err (Structure × Opts) :=
  match env.check_git with
  | Except.error e => Except.error e
  | Except.ok _ =>
    let project_path := rstripSlash (Value.pyStr (getKeyD opts "project_path" (.str ".")))
    let ppath := PyPath.parse project_path
    let opts := setKey opts "project_path" (.path ppath)
    let opts := setDefault opts "name" (.str ppath.name)
    match getKey opts "name" with
    | Option.none => Except.error (Err.keyError "name")
    | some name =>
      let opts := setDefault opts "package" (.str (make_valid_identifier name))
      let opts := setDefault opts "author" (.str env.username)
      let opts := setDefault opts "email" (.str env.email)
      let opts := setDefault opts "release_date" (.str env.today)
      match getKey opts "release_date" with
      | Option.none => Except.error (Err.keyError "release_date")
      | some rd =>
        match
          (match rd with
           | Value.str s => strptimeYear s
           | _ => Except.error (Err.typeError "strptime() argument must be str")) with
        | Except.error e => Except.error e
        | Except.ok year =>
          let opts := setDefault opts "year" (.int year)
          match name with
          | Value.str nm =>
            let opts := setDefault opts "title" (.str (mkTitle nm))
            let opts := setDefault opts "requirements" (.list [])
            let opts := setDefault opts "extensions" (.list [])
            match getKey opts "package" with
            | Option.none => Except.error (Err.keyError "package")
            | some package =>
              let opts := setDefault opts "root_pkg" package
              let opts := setDefault opts "qual_pkg" package
              let opts := setDefault opts "pretend" (.bool false)
              let cli := getKeyD opts "cli_params" (.dict [])
              match dictGet cli "extensions" (.list []) with
              | Except.error e => Except.error e
              | Except.ok exts0V =>
                match dictGet cli "args" (.dict []) with
                | Except.error e => Except.error e
                | Except.ok args0V =>
                  match
                    (match exts0V with
                     | Value.list l => toStrSet l
                     | _ => Except.error (Err.typeError "object is not iterable")) with
                  | Except.error e => Except.error e
                  | Except.ok exts0 =>
                    match getKey opts "extensions" with
                    | Option.none => Except.error (Err.keyError "extensions")
                    | some extsV =>
                      match extsV with
                      | Value.list extList =>
                        match collectCliParams extList exts0 args0V with
                        | Except.error e => Except.error e
                        | Except.ok (names, args) =>
                          let opts := setKey opts "cli_params"
                            (.dict [("extensions", .list (names.map Value.str)),
                                    ("args", args)])
                          Except.ok (struct, opts)
                      | _ => Except.error (Err.typeError "object is not iterable")
          | _ => Except.error (Err.typeError "object of this type has no len()")

/-- `verify_options_consistency(struct, opts)` (lines 156–177): reject
invalid package identifiers; in update mode without force, require a
clean git workspace.  The nested reads mirror Python's short-circuit
evaluation of `opts["update"] and not opts["force"]`. -/
def verify_options_consistency (env : Env) (struct : Structure) (opts : Opts) :
    Except Err (Structure × Opts) :=
  match getKey opts "package" with
  | Option.none => Except.error (Err.keyError "package")
  | some package =>
    if is_valid_identifier package then
      match getKey opts "update" with
      | Option.none => Except.error (Err.keyError "update")
      | some update =>
        if update.truthy then
          match getKey opts "force" with
          | Option.none => Except.error (Err.keyError "force")
          | some force =>
            if force.truthy then Except.ok (struct, opts)
            else
              match getKey opts "project_path" with
              | Option.none => Except.error (Err.keyError "project_path")
              | some pp =>
                if env.is_git_workspace_clean pp then Except.ok (struct, opts)
                else Except.error Err.gitDirtyWorkspace
        else Except.ok (struct, opts)
    else
      Except.error (Err.invalidIdentifier
        ("Package name " ++ package.pyRepr ++ " is not a valid identifier."))

/-- `verify_project_dir(struct, opts)` (lines 180–205): cross-check the
existence of the target path against the update/force flags.  The
condition `not opts["update"] and not opts["force"]` short-circuits, so
`force` is only read when `update` is falsy. -/
def verify_project_dir (env : Env) (struct : Structure) (opts : Opts) :
    Except Err (Structure × Opts) :=
  match getKey opts "project_path" with
  | Option.none => Except.error (Err.keyError "project_path")
  | some pv =>
    match pv with
    | Value.path p =>
      if env.path_exists p then
        match getKey opts "update" with
        | Option.none => Except.error (Err.keyError "update")
        | some update =>
          if update.truthy then Except.ok (struct, opts)
          else
            match getKey opts "force" with
            | Option.none => Except.error (Err.keyError "force")
            | some force =>
              if force.truthy then Except.ok (struct, opts)
              else
                Except.error (Err.directoryAlreadyExists
                  ("Directory " ++ p.toStr ++ " already exists! Use the `update` " ++
                   "option to update an existing project or the `force` option " ++
                   "to overwrite an existing directory."))
      else
        match getKey opts "update" with
        | Option.none => Except.error (Err.keyError "update")
        | some update =>
          if update.truthy then
            Except.error (Err.directoryDoesNotExist
              ("Project " ++ p.toStr ++ " does not exist and thus cannot be updated!"))
          else Except.ok (struct, opts)
    | _ => Except.error (Err.attributeError "object has no attribute exists")

/-- `init_git(struct, opts)` (lines 208–225): when not updating and the
target is not already a git repository, initialize and commit it
(`opts.get("pretend")` reads with a `None` default). -/
def init_git (env : Env) (struct : Structure) (opts : Opts) :
    Except Err (Structure × Opts) :=
  match getKey opts "update" with
  | Option.none => Except.error (Err.keyError "update")
  | some update =>
    if update.truthy then Except.ok (struct, opts)
    else
      match getKey opts "project_path" with
      | Option.none => Except.error (Err.keyError "project_path")
      | some pp =>
        if env.is_git_repo pp then Except.ok (struct, opts)
        else
          match env.init_commit_repo pp struct (getKeyD opts "pretend" Value.none) with
          | Except.ok _ => Except.ok (struct, opts)
          | Except.error e => Except.error e

/-! ## The action list and the pipeline engine -/

/-- Identities of the actions appearing in pipelines: the seven default
actions of `actions.py` plus extension-contributed actions tagged by
their display identifier. -/
inductive ActionId where
  | get_default_options
  | verify_options_consistency
  | define_structure
  | verify_project_dir
  | version_migration
  | create_structure
  | init_git
  | custom : String → ActionId
deriving DecidableEq, Repr

/-- The `DEFAULT` action list (lines 228–236), in declared order. -/
def DEFAULT : List ActionId :=
  [ActionId.get_default_options,
   ActionId.verify_options_consistency,
   ActionId.define_structure,
   ActionId.verify_project_dir,
   ActionId.version_migration,
   ActionId.create_structure,
   ActionId.init_git]

/-- Modelled from the spec: `identification.get_id` applied to each
action — the module-qualified display name used only for logging. -/
def get_id : ActionId → String
  | .get_default_options => get_id_str "pyscaffold.actions" "get_default_options"
  | .verify_options_consistency => get_id_str "pyscaffold.actions" "verify_options_consistency"
  | .define_structure => get_id_str "pyscaffold.structure" "define_structure"
  | .verify_project_dir => get_id_str "pyscaffold.actions" "verify_project_dir"
  | .version_migration => get_id_str "pyscaffold.update" "version_migration"
  | .create_structure => get_id_str "pyscaffold.structure" "create_structure"
  | .init_git => get_id_str "pyscaffold.actions" "init_git"
  | .custom n => n

/-- The semantics of an action: the four actions defined in
`actions.py` run their translations above; the three actions housed in
other modules and any extension actions run their `Env` oracles. -/
def runAction (env : Env) : ActionId → Structure → Opts → Except Err (Structure × Opts)
  | .get_default_options => get_default_options env
  | .verify_options_consistency => verify_options_consistency env
  | .define_structure => env.define_structure
  | .verify_project_dir => verify_project_dir env
  | .version_migration => env.version_migration
  | .create_structure => env.create_structure
  | .init_git => init_git env
  | .custom n => env.custom_action n

/-- The state of `pyscaffold.log.logger` observed by this module: an
indentation level and the emitted `(level, activity, subject)` reports. -/
structure LogState where
  indentLevel : Nat
  events : List (Nat × String × String)
deriving DecidableEq, Repr

/-- `logger.report(activity, subject)`. -/
def LogState.report (l : LogState) (activity subject : String) : LogState :=
  { l with events := l.events ++ [(l.indentLevel, activity, subject)] }

/-- The logger in its initial state. -/
def emptyLog : LogState := { indentLevel := 0, events := [] }

/-- `invoke(action, struct, opts)` (lines 69–85): report the "invoke"
event, run the action inside `logger.indent()` (the indentation scope is
entered and left again; the actions modelled here emit no reports of
their own), and hand back whatever the action returned — errors
included, since there is no handler. -/
def invoke (env : Env) (action : ActionId) (struct : Structure) (opts : Opts)
    (log : LogState) : Except Err (Structure × Opts) × LogState :=
  let log := log.report "invoke" (get_id action)
  (runAction env action struct opts, log)

/-- Sequential pipeline execution: `invoke` over the action list,
threading `(struct, opts)`; the first error stops the run. -/
def run_pipeline (env : Env) : List ActionId → Structure → Opts → LogState →
    Except Err (Structure × Opts) × LogState
  | [], struct, opts, log => (Except.ok (struct, opts), log)
  | a :: rest, struct, opts, log =>
    match invoke env a struct opts log with
    | (Except.ok (struct, opts), log) => run_pipeline env rest struct opts log
    | (Except.error e, log) => (Except.error e, log)

/-! ## Extensions and `discover` -/

/-- An extension: a named transformation of the action list, together
with its originating module (for the "activate" report), the ordering
constraints it declares against other extension names, and its cli
argument payload. -/
structure Extension where
  name : String
  module : String
  after : List String
  before : List String
  args : Value
  apply : List ActionId → List ActionId

/-- `r` must precede `e` when `e` declares it comes after `r`, or `r`
declares it comes before `e`. -/
def mustPrecede (r e : Extension) : Bool :=
  e.after.contains r.name || r.before.contains e.name

/-- An extension is ready when nothing still pending must precede it. -/
def extReady (e : Extension) (others : List Extension) : Bool :=
  others.all (fun r => !(mustPrecede r e))

/-- Scan the pending list in order and extract the first ready
extension (ties broken by stable input order). -/
def extractReady (pre : List Extension) : List Extension → Option (Extension × List Extension)
  | [] => Option.none
  | e :: rest =>
    if extReady e (pre ++ rest) then some (e, pre ++ rest)
    else extractReady (pre ++ [e]) rest

/-- Fuel-indexed stable topological sort (the fuel is the list length;
every successful step removes exactly one element). -/
def topoSortFuel : Nat → List Extension → Except Err (List Extension)
  | _, [] => Except.ok []
  | 0, _ :: _ => Except.error (Err.orderingError "cyclic ordering constraints")
  | Nat.succ n, l =>
    match extractReady [] l with
    | Option.none => Except.error (Err.orderingError "cyclic ordering constraints")
    | some (e, rest) =>
      match topoSortFuel n rest with
      | Except.ok tail => Except.ok (e :: tail)
      | Except.error err => Except.error err

/-- Modelled from the spec: `identification.deterministic_sort` (not
part of the given sources) — a deterministic topological order over the
declared before/after constraints, ties broken by stable input order,
failing with an `OrderingError` when the constraints are cyclic. -/
def deterministic_sort (extensions : List Extension) : Except Err (List Extension) :=
  topoSortFuel extensions.length extensions

/-- `_activate(extension, actions)` (lines 242–248): report the
"activate" event and apply the extension to the action list. -/
def activateExt (ext : Extension) (actions : List ActionId) (log : LogState) :
    List ActionId × LogState :=
  let log := log.report "activate" ext.module
  (ext.apply actions, log)

/-- `discover(extensions)` (lines 49–66): start from a copy of
`DEFAULT` (Lean lists are immutable, so the copy is the list itself),
sort the extensions deterministically, and fold the activation over the
action list. -/
def discover (extensions : List Extension) (log : LogState) :
    Except Err (List ActionId) × LogState :=
  let actions := DEFAULT
  match deterministic_sort extensions with
  | Except.error e => (Except.error e, log)
  | Except.ok sorted =>
    let folded := sorted.foldl (fun (p : List ActionId × LogState) f => activateExt f p.1 p.2)
      (actions, log)
    (Except.ok folded.1, folded.2)

/-! ## Inversion of a successful `get_default_options` run -/

/-- On success, `get_default_options` leaves the structure untouched and
its output options are the input options with `project_path` assigned,
the derivable keys filled by `setdefault` in source order, and
`cli_params` reassigned; the intermediate reads (`opts["name"]`,
`opts["release_date"]`, `opts["package"]`) are exposed as equations. -/
theorem gdo_inv (env : Env) (s : Structure) (opts : Opts) (s' : Structure) (o' : Opts)
    (h : get_default_options env s opts = Except.ok (s', o')) :
    s' = s ∧
    ∃ (name package cliVal : Value) (rdS nm : String) (year : Int),
      getKey
        (setDefault
          (setKey opts "project_path"
            (Value.path (PyPath.parse (rstripSlash (Value.pyStr (getKeyD opts "project_path" (Value.str ".")))))))
          "name"
          (Value.str (PyPath.name (PyPath.parse (rstripSlash (Value.pyStr (getKeyD opts "project_path" (Value.str "."))))))))
        "name" = some name ∧
      name = Value.str nm ∧
      getKey
        (setDefault (setDefault (setDefault (setDefault
          (setDefault
            (setKey opts "project_path"
              (Value.path (PyPath.parse (rstripSlash (Value.pyStr (getKeyD opts "project_path" (Value.str ".")))))))
            "name"
            (Value.str (PyPath.name (PyPath.parse (rstripSlash (Value.pyStr (getKeyD opts "project_path" (Value.str "."))))))))
          "package" (Value.str (make_valid_identifier name)))
          "author" (Value.str env.username))
          "email" (Value.str env.email))
          "release_date" (Value.str env.today))
        "release_date" = some (Value.str rdS) ∧
      strptimeYear rdS = Except.ok year ∧
      getKey
        (setDefault (setDefault (setDefault (setDefault
          (setDefault (setDefault (setDefault (setDefault
            (setDefault
              (setKey opts "project_path"
                (Value.path (PyPath.parse (rstripSlash (Value.pyStr (getKeyD opts "project_path" (Value.str ".")))))))
              "name"
              (Value.str (PyPath.name (PyPath.parse (rstripSlash (Value.pyStr (getKeyD opts "project_path" (Value.str "."))))))))
            "package" (Value.str (make_valid_identifier name)))
            "author" (Value.str env.username))
            "email" (Value.str env.email))
            "release_date" (Value.str env.today))
          "year" (Value.int year))
          "title" (Value.str (mkTitle nm)))
          "requirements" (Value.list []))
          "extensions" (Value.list []))
        "package" = some package ∧
      o' =
        setKey
          (setDefault (setDefault (setDefault
            (setDefault (setDefault (setDefault (setDefault
              (setDefault (setDefault (setDefault (setDefault
                (setDefault
                  (setKey opts "project_path"
                    (Value.path (PyPath.parse (rstripSlash (Value.pyStr (getKeyD opts "project_path" (Value.str ".")))))))
                  "name"
                  (Value.str (PyPath.name (PyPath.parse (rstripSlash (Value.pyStr (getKeyD opts "project_path" (Value.str "."))))))))
                "package" (Value.str (make_valid_identifier name)))
                "author" (Value.str env.username))
                "email" (Value.str env.email))
                "release_date" (Value.str env.today))
              "year" (Value.int year))
              "title" (Value.str (mkTitle nm)))
              "requirements" (Value.list []))
              "extensions" (Value.list []))
            "root_pkg" package)
            "qual_pkg" package)
            "pretend" (Value.bool false))
          "cli_params" cliVal := by
  unfold get_default_options at h
  split at h
  · exact Except.noConfusion h
  · dsimp only [] at h
    split at h
    · exact Except.noConfusion h
    · rename_i name hname
      split at h
      · exact Except.noConfusion h
      · rename_i rd hrd
        split at h
        · exact Except.noConfusion h
        · rename_i year hyear
          split at hyear
          · rename_i rdS hrdS
            split at h
            · rename_i nm hnm
              split at h
              · exact Except.noConfusion h
              · rename_i package hpackage
                split at h
                · exact Except.noConfusion h
                · rename_i exts0V hexts0V
                  split at h
                  · exact Except.noConfusion h
                  · rename_i args0V hargs0V
                    split at h
                    · exact Except.noConfusion h
                    · rename_i exts0 hexts0
                      split at h
                      · exact Except.noConfusion h
                      · rename_i extsV hextsV
                        split at h
                        · rename_i extList hextList
                          split at h
                          · exact Except.noConfusion h
                          · injection h with h
                            injection h with h1 h2
                            subst h1
                            subst h2
                            exact ⟨rfl, _, _, _, _, _, _, hname, rfl, hrd, hyear, hpackage, rfl⟩
                        · exact Except.noConfusion h
            · exact Except.noConfusion h
          · exact Except.noConfusion hyear

/-- Frame property of `get_default_options`: any binding present in the
input survives to the output unless its key is `project_path` or
`cli_params` (the only keys written with plain assignment). -/
theorem gdo_frame (env : Env) (s : Structure) (opts : Opts) (s' : Structure) (o' : Opts)
    (k : String) (v : Value)
    (h : get_default_options env s opts = Except.ok (s', o'))
    (hk1 : k ≠ "project_path") (hk2 : k ≠ "cli_params")
    (hv : getKey opts k = some v) : getKey o' k = some v := by
  obtain ⟨-, name, package, cliVal, rdS, nm, year, -, -, -, -, -, ho⟩ :=
    gdo_inv env s opts s' o' h
  subst ho
  rw [getKey_setKey_ne _ _ _ _ hk2]
  repeat apply setDefault_keeps
  rw [getKey_setKey_ne _ _ _ _ hk1]
  exact hv

/-- `get_default_options` never writes the keys `update` and `force`:
their lookups (present or absent) are unchanged by a successful run. -/
theorem gdo_update_force_unchanged (env : Env) (s : Structure) (opts : Opts)
    (s' : Structure) (o' : Opts)
    (h : get_default_options env s opts = Except.ok (s', o')) :
    getKey o' "update" = getKey opts "update" ∧
    getKey o' "force" = getKey opts "force" := by
  obtain ⟨-, name, package, cliVal, rdS, nm, year, -, -, -, -, -, ho⟩ :=
    gdo_inv env s opts s' o' h
  subst ho
  constructor <;>
    rw [getKey_setKey_ne _ _ _ _ (by decide), getKey_setDefault_ne _ _ _ _ (by decide),
      getKey_setDefault_ne _ _ _ _ (by decide), getKey_setDefault_ne _ _ _ _ (by decide),
      getKey_setDefault_ne _ _ _ _ (by decide), getKey_setDefault_ne _ _ _ _ (by decide),
      getKey_setDefault_ne _ _ _ _ (by decide), getKey_setDefault_ne _ _ _ _ (by decide),
      getKey_setDefault_ne _ _ _ _ (by decide), getKey_setDefault_ne _ _ _ _ (by decide),
      getKey_setDefault_ne _ _ _ _ (by decide), getKey_setDefault_ne _ _ _ _ (by decide),
      getKey_setDefault_ne _ _ _ _ (by decide), getKey_setKey_ne _ _ _ _ (by decide)]

/-! ## A concrete collaborator environment used for witnesses -/

/-- A fully concrete environment: git available and configured, clean
workspace, no pre-existing target directory or repository, and
pass-through external actions. -/
def testEnv : Env :=
  { check_git := Except.ok ()
    username := "jane"
    email := "jane@example.com"
    today := "2020-01-01"
    is_git_workspace_clean := fun _ => true
    path_exists := fun _ => false
    is_git_repo := fun _ => false
    init_commit_repo := fun _ _ _ => Except.ok ()
    define_structure := fun s o => Except.ok (s, o)
    version_migration := fun s o => Except.ok (s, o)
    create_structure := fun s o => Except.ok (s, o)
    custom_action := fun _ s o => Except.ok (s, o) }

/-! ## C1 -/

/-- C1: `discover([])` returns exactly the fixed default action
sequence in its declared order — `get_default_options`,
`verify_options_consistency`, `define_structure`, `verify_project_dir`,
`version_migration`, `create_structure`, `init_git` — and emits no log
event.  (`DEFAULT.copy()` aliasing is moot in the embedding: Lean lists
are immutable, and the code does copy before folding.) -/
theorem discover_empty_is_default (log : LogState) :
    discover [] log = (Except.ok DEFAULT, log) ∧
    DEFAULT =
      [ActionId.get_default_options, ActionId.verify_options_consistency,
       ActionId.define_structure, ActionId.verify_project_dir,
       ActionId.version_migration, ActionId.create_structure, ActionId.init_git] :=
  ⟨rfl, rfl⟩

/-! ## C6 -/

/-- Projecting the log-threaded activation fold onto the action list
gives the plain fold of `Extension.apply`. -/
theorem foldl_activateExt_fst (sorted : List Extension) (acts : List ActionId) (log : LogState) :
    (sorted.foldl (fun (p : List ActionId × LogState) f => activateExt f p.1 p.2) (acts, log)).1
      = sorted.foldl (fun acc f => f.apply acc) acts := by
  induction sorted generalizing acts log with
  | nil => rfl
  | cons e rest ih =>
    simp only [List.foldl_cons, activateExt]
    exact ih _ _

/-- C6: `discover` equals the left-to-right fold of the
deterministically sorted extensions over the `DEFAULT` list, each
extension receiving the previous fold step's action list; and the
result is deterministic — it does not depend on the ambient logger
state, so identical extension lists always yield identical action
lists. -/
theorem discover_is_fold_of_sorted :
    (∀ (exts sorted : List Extension) (log : LogState),
       deterministic_sort exts = Except.ok sorted →
       (discover exts log).1 = Except.ok (sorted.foldl (fun acc f => f.apply acc) DEFAULT)) ∧
    (∀ (exts : List Extension) (log log' : LogState),
       (discover exts log).1 = (discover exts log').1) := by
  constructor
  · intro exts sorted log h
    unfold discover
    rw [h]
    dsimp only []
    rw [foldl_activateExt_fst]
  · intro exts log log'
    unfold discover
    cases h : deterministic_sort exts with
    | error e => rfl
    | ok sorted =>
      dsimp only []
      rw [foldl_activateExt_fst, foldl_activateExt_fst]

/-- An extension with an ordering constraint, for the C6 witness: it
must run after `pre`, and appends its action. -/
def extCirrus : Extension :=
  { name := "cirrus"
    module := "pyscaffold.extensions.cirrus"
    after := ["pre"]
    before := []
    args := Value.none
    apply := fun l => l ++ [ActionId.custom "cirrus"] }

/-- An extension the C6 witness sorts in front of `extCirrus`: it
prepends its action. -/
def extPre : Extension :=
  { name := "pre"
    module := "pyscaffold.extensions.pre"
    after := []
    before := []
    args := Value.none
    apply := fun l => ActionId.custom "pre" :: l }

/-- Witness for C6 at a concrete two-extension list whose constraint
reorders it: the sort puts `extPre` first and `discover` equals the
plain fold over `DEFAULT`. -/
theorem discover_is_fold_of_sorted_witness :
    (discover [extCirrus, extPre] emptyLog).1 =
      Except.ok (([extPre, extCirrus] : List Extension).foldl (fun acc f => f.apply acc) DEFAULT) ∧
    (discover [extCirrus, extPre] emptyLog).1 = (discover [extCirrus, extPre] (emptyLog.report "x" "y")).1 :=
  ⟨discover_is_fold_of_sorted.1 [extCirrus, extPre] [extPre, extCirrus] emptyLog rfl,
   discover_is_fold_of_sorted.2 [extCirrus, extPre] emptyLog (emptyLog.report "x" "y")⟩

/-! ## C5 -/

/-- C5: `invoke` returns exactly what the action returns — on success
and on error alike, so an exception propagates unchanged — its only
other effect being the "invoke" log report; and when an action errors,
the pipeline run stops there: the error is the run's result and no
subsequent action executes. -/
theorem invoke_returns_action_result :
    (∀ (env : Env) (a : ActionId) (s : Structure) (o : Opts) (log : LogState),
       (invoke env a s o log).1 = runAction env a s o ∧
       (invoke env a s o log).2 = log.report "invoke" (get_id a)) ∧
    (∀ (env : Env) (a : ActionId) (rest : List ActionId) (s : Structure) (o : Opts)
       (log : LogState) (e : Err),
       runAction env a s o = Except.error e →
       (run_pipeline env (a :: rest) s o log).1 = Except.error e) := by
  constructor
  · intro env a s o log
    exact ⟨rfl, rfl⟩
  · intro env a rest s o log e h
    unfold run_pipeline invoke
    rw [h]

/-- Witness for C5: `verify_options_consistency` on an options map with
no `package` key raises `KeyError("package")`, and a pipeline starting
with it stops with exactly that error. -/
theorem invoke_returns_action_result_witness :
    (run_pipeline testEnv
      (ActionId.verify_options_consistency :: [ActionId.define_structure]) [] [] emptyLog).1 =
      Except.error (Err.keyError "package") :=
  invoke_returns_action_result.2 testEnv ActionId.verify_options_consistency
    [ActionId.define_structure] [] [] emptyLog (Err.keyError "package") rfl

/-! ## C2 -/

/-- C2: with `project_path`, `update` and `force` present (a path and
two booleans), `verify_project_dir` raises `DirectoryAlreadyExists` iff
the target exists and both flags are false, raises
`DirectoryDoesNotExist` iff the target is missing and `update` is true,
and in every other combination returns `(struct, opts)` unchanged. -/
theorem verify_project_dir_cases (env : Env) (s : Structure) (opts : Opts)
    (p : PyPath) (u f : Bool)
    (hp : getKey opts "project_path" = some (Value.path p))
    (hu : getKey opts "update" = some (Value.bool u))
    (hf : getKey opts "force" = some (Value.bool f)) :
    ((∃ m, verify_project_dir env s opts = Except.error (Err.directoryAlreadyExists m)) ↔
        env.path_exists p = true ∧ u = false ∧ f = false) ∧
    ((∃ m, verify_project_dir env s opts = Except.error (Err.directoryDoesNotExist m)) ↔
        env.path_exists p = false ∧ u = true) ∧
    (¬(env.path_exists p = true ∧ u = false ∧ f = false) →
     ¬(env.path_exists p = false ∧ u = true) →
     verify_project_dir env s opts = Except.ok (s, opts)) := by
  cases hpe : env.path_exists p <;> cases u <;> cases f <;>
    simp [verify_project_dir, hp, hu, hf, hpe, Value.truthy]

/-- Witness for C2 at a concrete input: the path exists and both flags
are false, so the action fails with `DirectoryAlreadyExists`. -/
theorem verify_project_dir_cases_witness :
    (∃ m, verify_project_dir
        { testEnv with path_exists := fun _ => true } []
        [("project_path", Value.path (PyPath.parse "proj")),
         ("update", Value.bool false), ("force", Value.bool false)] =
      Except.error (Err.directoryAlreadyExists m)) :=
  (verify_project_dir_cases { testEnv with path_exists := fun _ => true } []
    [("project_path", Value.path (PyPath.parse "proj")),
     ("update", Value.bool false), ("force", Value.bool false)]
    (PyPath.parse "proj") false false rfl rfl rfl).1.mpr ⟨rfl, rfl, rfl⟩

/-! ## C3 -/

/-- One pipeline step that succeeds continues with the action's result. -/
theorem run_pipeline_cons_ok (env : Env) (a : ActionId) (rest : List ActionId)
    (s : Structure) (o : Opts) (log : LogState) (s₁ : Structure) (o₁ : Opts)
    (h : runAction env a s o = Except.ok (s₁, o₁)) :
    run_pipeline env (a :: rest) s o log =
      run_pipeline env rest s₁ o₁ (log.report "invoke" (get_id a)) := by
  conv_lhs => rw [run_pipeline]
  unfold invoke
  rw [h]

/-- One pipeline step that errors ends the run with that error. -/
theorem run_pipeline_cons_err (env : Env) (a : ActionId) (rest : List ActionId)
    (s : Structure) (o : Opts) (log : LogState) (e : Err)
    (h : runAction env a s o = Except.error e) :
    run_pipeline env (a :: rest) s o log =
      (Except.error e, log.report "invoke" (get_id a)) := by
  unfold run_pipeline invoke
  rw [h]

/-- C3: with the documented keys present, `verify_options_consistency`
raises `InvalidIdentifier` iff the package value fails the validity
predicate; otherwise it raises `GitDirtyWorkspace` exactly when
updating without force over an unclean workspace, and returns
`(struct, opts)` unchanged in all remaining cases.  Moreover the check
runs before `define_structure` in the default order: a pipeline whose
options carry package `"123bad"` stops with `InvalidIdentifier` for
every environment — in particular whatever `env.define_structure` does,
it is never consulted. -/
theorem verify_options_consistency_cases :
    (∀ (env : Env) (s : Structure) (opts : Opts) (pkg pp : Value) (u f : Bool),
      getKey opts "package" = some pkg →
      getKey opts "update" = some (Value.bool u) →
      getKey opts "force" = some (Value.bool f) →
      getKey opts "project_path" = some pp →
      ((∃ m, verify_options_consistency env s opts = Except.error (Err.invalidIdentifier m)) ↔
          is_valid_identifier pkg = false) ∧
      (is_valid_identifier pkg = true → u = true → f = false →
        env.is_git_workspace_clean pp = false →
        verify_options_consistency env s opts = Except.error Err.gitDirtyWorkspace) ∧
      (is_valid_identifier pkg = true →
        (u = false ∨ f = true ∨ env.is_git_workspace_clean pp = true) →
        verify_options_consistency env s opts = Except.ok (s, opts))) ∧
    (∀ (env : Env) (s : Structure) (opts : Opts) (log : LogState) (s₁ : Structure) (o₁ : Opts),
      get_default_options env s opts = Except.ok (s₁, o₁) →
      getKey opts "package" = some (Value.str "123bad") →
      ∃ m, (run_pipeline env DEFAULT s opts log).1 = Except.error (Err.invalidIdentifier m)) := by
  constructor
  · intro env s opts pkg pp u f hpkg hu hf hpp
    cases hv : is_valid_identifier pkg <;> cases u <;> cases f <;>
      cases hc : env.is_git_workspace_clean pp <;>
      simp [verify_options_consistency, hpkg, hu, hf, hpp, hv, hc, Value.truthy]
  · intro env s opts log s₁ o₁ hgdo hpkg
    have hpkg₁ : getKey o₁ "package" = some (Value.str "123bad") :=
      gdo_frame env s opts s₁ o₁ "package" (Value.str "123bad") hgdo
        (by decide) (by decide) hpkg
    have hvoc : verify_options_consistency env s₁ o₁ =
        Except.error (Err.invalidIdentifier
          ("Package name " ++ (Value.str "123bad").pyRepr ++ " is not a valid identifier.")) := by
      unfold verify_options_consistency
      rw [hpkg₁]
      rfl
    refine ⟨"Package name " ++ (Value.str "123bad").pyRepr ++ " is not a valid identifier.", ?_⟩
    rw [show DEFAULT = ActionId.get_default_options :: ActionId.verify_options_consistency ::
          [ActionId.define_structure, ActionId.verify_project_dir, ActionId.version_migration,
           ActionId.create_structure, ActionId.init_git] from rfl,
        run_pipeline_cons_ok env ActionId.get_default_options _ s opts log s₁ o₁ hgdo,
        run_pipeline_cons_err env ActionId.verify_options_consistency _ s₁ o₁ _ _ hvoc]

/-- Witness for C3: a valid package with `update=false` passes through
unchanged, and a pipeline over options carrying package `"123bad"`
stops with `InvalidIdentifier`. -/
theorem verify_options_consistency_cases_witness :
    verify_options_consistency testEnv []
      [("package", Value.str "pkg"), ("update", Value.bool false),
       ("force", Value.bool false), ("project_path", Value.path (PyPath.parse "p"))] =
      Except.ok ([],
        [("package", Value.str "pkg"), ("update", Value.bool false),
         ("force", Value.bool false), ("project_path", Value.path (PyPath.parse "p"))]) ∧
    (∃ m, (run_pipeline testEnv DEFAULT [] [("package", Value.str "123bad")] emptyLog).1 =
      Except.error (Err.invalidIdentifier m)) :=
  ⟨(verify_options_consistency_cases.1 testEnv []
      [("package", Value.str "pkg"), ("update", Value.bool false),
       ("force", Value.bool false), ("project_path", Value.path (PyPath.parse "p"))]
      (Value.str "pkg") (Value.path (PyPath.parse "p")) false false
      rfl rfl rfl rfl).2.2 rfl (Or.inl rfl),
   verify_options_consistency_cases.2 testEnv [] [("package", Value.str "123bad")]
     emptyLog []
     [("package", Value.str "123bad"),
      ("project_path", Value.path { absolute := false, parts := [] }),
      ("name", Value.str ""), ("author", Value.str "jane"),
      ("email", Value.str "jane@example.com"),
      ("release_date", Value.str "2020-01-01"), ("year", Value.int 2020),
      ("title", Value.str "\n\n"), ("requirements", Value.list []),
      ("extensions", Value.list []), ("root_pkg", Value.str "123bad"),
      ("qual_pkg", Value.str "123bad"), ("pretend", Value.bool false),
      ("cli_params", Value.dict [("extensions", Value.list []), ("args", Value.dict [])])]
     rfl rfl⟩

/-! ## C4 -/

/-- C4: whenever `get_default_options` returns normally, the resulting
options carry values for every derivable key: the normalized
`project_path`, `name`, `package`, `author`, `email`, `release_date`,
`year` (derived from `release_date` when not supplied), `title`,
`requirements` and `extensions` (defaulting to empty lists), `root_pkg`
and `qual_pkg` (propagated from `package`), and `pretend` (defaulting
to false). -/
theorem gdo_fills_all_defaults (env : Env) (s : Structure) (opts : Opts)
    (s' : Structure) (o' : Opts)
    (h : get_default_options env s opts = Except.ok (s', o')) :
    (∃ p, getKey o' "project_path" = some (Value.path p) ∧
       p = PyPath.parse (rstripSlash (Value.pyStr (getKeyD opts "project_path" (Value.str "."))))) ∧
    (getKey o' "name").isSome = true ∧
    (getKey o' "package").isSome = true ∧
    (getKey o' "author").isSome = true ∧
    (getKey o' "email").isSome = true ∧
    (getKey o' "release_date").isSome = true ∧
    (getKey o' "year").isSome = true ∧
    (getKey opts "year" = Option.none →
       ∃ (rdS : String) (y : Int), getKey o' "release_date" = some (Value.str rdS) ∧
         strptimeYear rdS = Except.ok y ∧ getKey o' "year" = some (Value.int y)) ∧
    (getKey o' "title").isSome = true ∧
    (getKey o' "requirements").isSome = true ∧
    (getKey opts "requirements" = Option.none → getKey o' "requirements" = some (Value.list [])) ∧
    (getKey o' "extensions").isSome = true ∧
    (getKey opts "extensions" = Option.none → getKey o' "extensions" = some (Value.list [])) ∧
    (getKey o' "root_pkg").isSome = true ∧
    (getKey o' "qual_pkg").isSome = true ∧
    (getKey opts "root_pkg" = Option.none → getKey o' "root_pkg" = getKey o' "package") ∧
    (getKey opts "qual_pkg" = Option.none → getKey o' "qual_pkg" = getKey o' "package") ∧
    (getKey o' "pretend").isSome = true ∧
    (getKey opts "pretend" = Option.none → getKey o' "pretend" = some (Value.bool false)) := by
  obtain ⟨-, name, package, cliVal, rdS, nm, year, hname, hnm, hrd, hyear, hpackage, ho⟩ :=
    gdo_inv env s opts s' o' h
  subst ho
  have hpkg' : getKey
      (setKey
        (setDefault (setDefault (setDefault
          (setDefault (setDefault (setDefault (setDefault
            (setDefault (setDefault (setDefault (setDefault
              (setDefault
                (setKey opts "project_path"
                  (Value.path (PyPath.parse (rstripSlash (Value.pyStr (getKeyD opts "project_path" (Value.str ".")))))))
                "name"
                (Value.str (PyPath.name (PyPath.parse (rstripSlash (Value.pyStr (getKeyD opts "project_path" (Value.str "."))))))))
              "package" (Value.str (make_valid_identifier name)))
              "author" (Value.str env.username))
              "email" (Value.str env.email))
              "release_date" (Value.str env.today))
            "year" (Value.int year))
            "title" (Value.str (mkTitle nm)))
            "requirements" (Value.list []))
            "extensions" (Value.list []))
          "root_pkg" package)
          "qual_pkg" package)
          "pretend" (Value.bool false))
        "cli_params" cliVal)
      "package" = some package := by
    simpa using hpackage
  refine ⟨⟨_, ?_, rfl⟩, ?_, ?_, ?_, ?_, ?_, ?_, ?_, ?_, ?_, ?_, ?_, ?_, ?_, ?_, ?_, ?_, ?_, ?_⟩
  · simp
  · simp
  · simp
  · simp
  · simp
  · simp
  · simp
  · intro habs
    refine ⟨rdS, year, ?_, hyear, ?_⟩
    · simpa using hrd
    · simp [habs]
  · simp
  · simp
  · intro habs
    simp [habs]
  · simp
  · intro habs
    simp [habs]
  · simp
  · simp
  · intro habs
    rw [hpkg']
    simp [habs]
  · intro habs
    rw [hpkg']
    simp [habs]
  · simp
  · intro habs
    simp [habs]

/-- The options produced by `get_default_options` under `testEnv` from
an empty options map (checked by `rfl` in the C4 witness). -/
def gdoEmptyOut : Opts :=
  [("project_path", Value.path { absolute := false, parts := [] }),
   ("name", Value.str ""), ("package", Value.str ""),
   ("author", Value.str "jane"), ("email", Value.str "jane@example.com"),
   ("release_date", Value.str "2020-01-01"), ("year", Value.int 2020),
   ("title", Value.str "\n\n"), ("requirements", Value.list []),
   ("extensions", Value.list []), ("root_pkg", Value.str ""),
   ("qual_pkg", Value.str ""), ("pretend", Value.bool false),
   ("cli_params", Value.dict [("extensions", Value.list []), ("args", Value.dict [])])]

/-- Witness for C4: `get_default_options` on an empty options map under
`testEnv` produces `gdoEmptyOut`, whose derivable keys are all filled
with their documented defaults. -/
theorem gdo_fills_all_defaults_witness :
    get_default_options testEnv [] [] = Except.ok ([], gdoEmptyOut) ∧
    (∃ p, getKey gdoEmptyOut "project_path" = some (Value.path p) ∧ p = PyPath.parse ".") ∧
    getKey gdoEmptyOut "requirements" = some (Value.list []) ∧
    getKey gdoEmptyOut "extensions" = some (Value.list []) ∧
    getKey gdoEmptyOut "pretend" = some (Value.bool false) ∧
    getKey gdoEmptyOut "root_pkg" = getKey gdoEmptyOut "package" := by
  obtain ⟨h1, h2, h3, h4, h5, h6, h7, h8, h9, h10, h11, h12, h13, h14, h15, h16, h17, h18, h19⟩ :=
    gdo_fills_all_defaults testEnv [] [] [] gdoEmptyOut rfl
  obtain ⟨p, hp, hpe⟩ := h1
  exact ⟨rfl, ⟨p, hp, hpe⟩, h11 rfl, h13 rfl, h19 rfl, h16 rfl⟩

/-! ## C8 -/

/-- C8: when `project_path` is absent, `get_default_options` sets it to
`Path(".")` no matter what `name` was supplied; when it is present, its
string form is stripped of trailing path separators before conversion
to a `Path`. -/
theorem gdo_project_path_normalization (env : Env) (s : Structure) (opts : Opts)
    (s' : Structure) (o' : Opts)
    (h : get_default_options env s opts = Except.ok (s', o')) :
    (getKey opts "project_path" = Option.none →
       getKey o' "project_path" = some (Value.path (PyPath.parse "."))) ∧
    (∀ v, getKey opts "project_path" = some v →
       getKey o' "project_path" =
         some (Value.path (PyPath.parse (rstripSlash v.pyStr)))) := by
  obtain ⟨-, name, package, cliVal, rdS, nm, year, -, -, -, -, -, ho⟩ :=
    gdo_inv env s opts s' o' h
  subst ho
  constructor
  · intro habs
    simp [getKeyD, habs]
    rfl
  · intro v hv
    simp [getKeyD, hv]

/-- The initial options of the `{name: "myproj"}` scenario. -/
def optsC7 : Opts :=
  [("name", Value.str "myproj"), ("update", Value.bool false), ("force", Value.bool false)]

/-- The options produced by `get_default_options` under `testEnv` from
`optsC7` (checked by `rfl` where used). -/
def gdoC7Out : Opts :=
  [("name", Value.str "myproj"), ("update", Value.bool false), ("force", Value.bool false),
   ("project_path", Value.path { absolute := false, parts := [] }),
   ("package", Value.str "myproj"), ("author", Value.str "jane"),
   ("email", Value.str "jane@example.com"), ("release_date", Value.str "2020-01-01"),
   ("year", Value.int 2020), ("title", Value.str "======\nmyproj\n======"),
   ("requirements", Value.list []), ("extensions", Value.list []),
   ("root_pkg", Value.str "myproj"), ("qual_pkg", Value.str "myproj"),
   ("pretend", Value.bool false),
   ("cli_params", Value.dict [("extensions", Value.list []), ("args", Value.dict [])])]

/-- The options produced by `get_default_options` under `testEnv` from
a `project_path` of `"myproj//"` (checked by `rfl` where used). -/
def gdoSlashOut : Opts :=
  [("project_path", Value.path { absolute := false, parts := ["myproj"] }),
   ("name", Value.str "myproj"), ("package", Value.str "myproj"),
   ("author", Value.str "jane"), ("email", Value.str "jane@example.com"),
   ("release_date", Value.str "2020-01-01"), ("year", Value.int 2020),
   ("title", Value.str "======\nmyproj\n======"),
   ("requirements", Value.list []), ("extensions", Value.list []),
   ("root_pkg", Value.str "myproj"), ("qual_pkg", Value.str "myproj"),
   ("pretend", Value.bool false),
   ("cli_params", Value.dict [("extensions", Value.list []), ("args", Value.dict [])])]

/-- Witness for C8: a supplied `name` does not influence the defaulted
path (it becomes `Path(".")`), and a `project_path` of `"myproj//"` is
stripped to `Path("myproj")`. -/
theorem gdo_project_path_normalization_witness :
    getKey gdoC7Out "project_path" = some (Value.path (PyPath.parse ".")) ∧
    getKey gdoSlashOut "project_path" = some (Value.path (PyPath.parse "myproj")) :=
  ⟨(gdo_project_path_normalization testEnv [] optsC7 [] gdoC7Out rfl).1 rfl,
   by
    have h := (gdo_project_path_normalization testEnv []
      [("project_path", Value.str "myproj//")] [] gdoSlashOut rfl).2
      (Value.str "myproj//") rfl
    exact h⟩

/-! ## C9 -/

/-- C9: `get_default_options` overwrites only `project_path` and
`cli_params`; every other key's value that is already present in the
input options — in particular any of the keys it fills by `setdefault`
— is left unchanged in the output. -/
theorem gdo_preserves_present_values (env : Env) (s : Structure) (opts : Opts)
    (s' : Structure) (o' : Opts) (k : String) (v : Value)
    (h : get_default_options env s opts = Except.ok (s', o'))
    (hk1 : k ≠ "project_path") (hk2 : k ≠ "cli_params")
    (hv : getKey opts k = some v) : getKey o' k = some v :=
  gdo_frame env s opts s' o' k v h hk1 hk2 hv

/-- The options produced by `get_default_options` under `testEnv` from
`[("author", "ada")]` (checked by `rfl` in the C9 witness). -/
def gdoAuthorOut : Opts :=
  [("author", Value.str "ada"),
   ("project_path", Value.path { absolute := false, parts := [] }),
   ("name", Value.str ""), ("package", Value.str ""),
   ("email", Value.str "jane@example.com"),
   ("release_date", Value.str "2020-01-01"), ("year", Value.int 2020),
   ("title", Value.str "\n\n"), ("requirements", Value.list []),
   ("extensions", Value.list []), ("root_pkg", Value.str ""),
   ("qual_pkg", Value.str ""), ("pretend", Value.bool false),
   ("cli_params", Value.dict [("extensions", Value.list []), ("args", Value.dict [])])]

/-- Witness for C9: a supplied `author` value survives
`get_default_options` unchanged. -/
theorem gdo_preserves_present_values_witness :
    getKey gdoAuthorOut "author" = some (Value.str "ada") :=
  gdo_preserves_present_values testEnv [] [("author", Value.str "ada")] [] gdoAuthorOut
    "author" (Value.str "ada") rfl (by decide) (by decide) rfl

/-! ## C10 (corrected) -/

/-- An options map lacking `force` on which `verify_options_consistency`
and `init_git` nevertheless succeed. -/
def optsNoForce : Opts :=
  [("package", Value.str "pkg"), ("update", Value.bool false),
   ("project_path", Value.path { absolute := false, parts := ["p"] })]

/-- Counterexample to C10 as stated: these options lack `"force"`, yet
`verify_options_consistency` and `init_git` both return normally
instead of failing with a key-lookup error — Python's short-circuit
`opts["update"] and not opts["force"]` never reads `force` when
`update` is falsy, and `init_git` never reads `force` at all. -/
theorem missing_force_no_keyerror :
    getKey optsNoForce "force" = Option.none ∧
    verify_options_consistency testEnv [] optsNoForce = Except.ok ([], optsNoForce) ∧
    init_git testEnv [] optsNoForce = Except.ok ([], optsNoForce) :=
  ⟨rfl, rfl, rfl⟩

/-- C10 (amended): the three actions read `opts["update"]` with no
default — on an options map lacking `update` each fails with
`KeyError("update")` once its earlier reads pass (a valid package for
`verify_options_consistency`, a present path for `verify_project_dir`)
— and `get_default_options` never writes `update` or `force`; but
`force` is only read on the short-circuit paths that need it, so a map
lacking only `force` can pass through (e.g. with `update` falsy). -/
theorem update_read_without_default :
    (∀ (env : Env) (s : Structure) (opts : Opts) (pkg : Value),
       getKey opts "package" = some pkg → is_valid_identifier pkg = true →
       getKey opts "update" = Option.none →
       verify_options_consistency env s opts = Except.error (Err.keyError "update")) ∧
    (∀ (env : Env) (s : Structure) (opts : Opts) (p : PyPath),
       getKey opts "project_path" = some (Value.path p) →
       getKey opts "update" = Option.none →
       verify_project_dir env s opts = Except.error (Err.keyError "update")) ∧
    (∀ (env : Env) (s : Structure) (opts : Opts),
       getKey opts "update" = Option.none →
       init_git env s opts = Except.error (Err.keyError "update")) ∧
    (∀ (env : Env) (s : Structure) (opts : Opts) (s' : Structure) (o' : Opts),
       get_default_options env s opts = Except.ok (s', o') →
       getKey o' "update" = getKey opts "update" ∧
       getKey o' "force" = getKey opts "force") ∧
    (∀ (env : Env) (s : Structure) (opts : Opts) (pkg : Value),
       getKey opts "package" = some pkg → is_valid_identifier pkg = true →
       getKey opts "update" = some (Value.bool false) →
       verify_options_consistency env s opts = Except.ok (s, opts)) := by
  refine ⟨?_, ?_, ?_, ?_, ?_⟩
  · intro env s opts pkg hpkg hval hupd
    unfold verify_options_consistency
    rw [hpkg]
    simp [hval, hupd]
  · intro env s opts p hp hupd
    unfold verify_project_dir
    rw [hp]
    cases hpe : env.path_exists p <;> simp [hupd]
  · intro env s opts hupd
    unfold init_git
    rw [hupd]
  · intro env s opts s' o' h
    exact gdo_update_force_unchanged env s opts s' o' h
  · intro env s opts pkg hpkg hval hupd
    unfold verify_options_consistency
    rw [hpkg]
    simp [hval, hupd, Value.truthy]

/-- Witness for C10 (amended), at concrete inputs: `init_git` with no
`update` key fails with `KeyError("update")`, and a valid package with
`update=false` and no `force` passes the consistency check. -/
theorem update_read_without_default_witness :
    init_git testEnv [] [] = Except.error (Err.keyError "update") ∧
    verify_options_consistency testEnv [] optsNoForce = Except.ok ([], optsNoForce) :=
  ⟨update_read_without_default.2.2.1 testEnv [] [] rfl,
   update_read_without_default.2.2.2.2 testEnv [] optsNoForce (Value.str "pkg") rfl rfl rfl⟩

/-! ## C7 (corrected) -/

set_option maxHeartbeats 2000000 in
/-- Counterexample to C7 as stated: for initial options
`{name: "myproj", update: false, force: false}`, `get_default_options`
fills `project_path` with `Path(".")` (the default `"."`), not with
`Path("myproj")` — the supplied `name` never feeds the path. -/
theorem scenario_myproj_path_counterexample :
    get_default_options testEnv [] optsC7 = Except.ok ([], gdoC7Out) ∧
    getKey gdoC7Out "project_path" = some (Value.path (PyPath.parse ".")) ∧
    PyPath.parse "." ≠ PyPath.parse "myproj" :=
  ⟨rfl, rfl, by decide⟩

set_option maxHeartbeats 1000000 in
/-- C7 (amended): for initial options `{name: "myproj"}` with
`update=false` and `force=false`, `get_default_options` fills
`package="myproj"` and `project_path=Path(".")` (not `Path("myproj")`),
for every collaborator environment on which it succeeds; and with the
target path `"."` absent and the external collaborators succeeding
(`testEnv`), the pipeline proceeds through all phases and succeeds. -/
theorem scenario_myproj_amended :
    (∀ (env : Env) (s s' : Structure) (o' : Opts),
       get_default_options env s optsC7 = Except.ok (s', o') →
       getKey o' "package" = some (Value.str "myproj") ∧
       getKey o' "project_path" = some (Value.path (PyPath.parse "."))) ∧
    (run_pipeline testEnv DEFAULT [] optsC7 emptyLog).1 = Except.ok ([], gdoC7Out) ∧
    testEnv.path_exists (PyPath.parse ".") = false := by
  have h1 : runAction testEnv ActionId.get_default_options [] optsC7 =
      Except.ok ([], gdoC7Out) := rfl
  have h2 : runAction testEnv ActionId.verify_options_consistency [] gdoC7Out =
      Except.ok ([], gdoC7Out) := rfl
  have h3 : runAction testEnv ActionId.define_structure [] gdoC7Out =
      Except.ok ([], gdoC7Out) := rfl
  have h4 : runAction testEnv ActionId.verify_project_dir [] gdoC7Out =
      Except.ok ([], gdoC7Out) := rfl
  have h5 : runAction testEnv ActionId.version_migration [] gdoC7Out =
      Except.ok ([], gdoC7Out) := rfl
  have h6 : runAction testEnv ActionId.create_structure [] gdoC7Out =
      Except.ok ([], gdoC7Out) := rfl
  have h7 : runAction testEnv ActionId.init_git [] gdoC7Out =
      Except.ok ([], gdoC7Out) := rfl
  refine ⟨?_, ?_, rfl⟩
  case refine_2 =>
    rw [show DEFAULT = ActionId.get_default_options ::
          [ActionId.verify_options_consistency, ActionId.define_structure,
           ActionId.verify_project_dir, ActionId.version_migration,
           ActionId.create_structure, ActionId.init_git] from rfl,
        run_pipeline_cons_ok _ _ _ _ _ _ _ _ h1,
        run_pipeline_cons_ok _ _ _ _ _ _ _ _ h2,
        run_pipeline_cons_ok _ _ _ _ _ _ _ _ h3,
        run_pipeline_cons_ok _ _ _ _ _ _ _ _ h4,
        run_pipeline_cons_ok _ _ _ _ _ _ _ _ h5,
        run_pipeline_cons_ok _ _ _ _ _ _ _ _ h6,
        run_pipeline_cons_ok _ _ _ _ _ _ _ _ h7]
    rfl
  intro env s s' o' h
  obtain ⟨hs, name, package, cliVal, rdS, nm, year, hname, hnm, hrd, hyear, hpackage, ho⟩ :=
    gdo_inv env s optsC7 s' o' h
  have hn : name = Value.str "myproj" := by
    rw [show getKey
        (setDefault
          (setKey optsC7 "project_path"
            (Value.path (PyPath.parse (rstripSlash (Value.pyStr (getKeyD optsC7 "project_path" (Value.str ".")))))))
          "name"
          (Value.str (PyPath.name (PyPath.parse (rstripSlash (Value.pyStr (getKeyD optsC7 "project_path" (Value.str "."))))))))
        "name" = some (Value.str "myproj") from rfl] at hname
    exact (Option.some.injEq _ _ ▸ hname).symm
  rw [ho, hn]
  constructor
  · rw [getKey_setKey_ne _ _ _ _ (by decide), getKey_setDefault_ne _ _ _ _ (by decide),
      getKey_setDefault_ne _ _ _ _ (by decide), getKey_setDefault_ne _ _ _ _ (by decide),
      getKey_setDefault_ne _ _ _ _ (by decide), getKey_setDefault_ne _ _ _ _ (by decide),
      getKey_setDefault_ne _ _ _ _ (by decide), getKey_setDefault_ne _ _ _ _ (by decide),
      getKey_setDefault_ne _ _ _ _ (by decide), getKey_setDefault_ne _ _ _ _ (by decide),
      getKey_setDefault_ne _ _ _ _ (by decide), getKey_setDefault_self]
    rfl
  · rw [getKey_setKey_ne _ _ _ _ (by decide), getKey_setDefault_ne _ _ _ _ (by decide),
      getKey_setDefault_ne _ _ _ _ (by decide), getKey_setDefault_ne _ _ _ _ (by decide),
      getKey_setDefault_ne _ _ _ _ (by decide), getKey_setDefault_ne _ _ _ _ (by decide),
      getKey_setDefault_ne _ _ _ _ (by decide), getKey_setDefault_ne _ _ _ _ (by decide),
      getKey_setDefault_ne _ _ _ _ (by decide), getKey_setDefault_ne _ _ _ _ (by decide),
      getKey_setDefault_ne _ _ _ _ (by decide), getKey_setDefault_ne _ _ _ _ (by decide),
      getKey_setDefault_ne _ _ _ _ (by decide), getKey_setKey_self]
    rfl

set_option maxHeartbeats 1000000 in
/-- Witness for C7 (amended): under the concrete `testEnv`, the run on
`optsC7` yields `gdoC7Out`, whose package is `"myproj"` and whose
project path is `Path(".")`. -/
theorem scenario_myproj_amended_witness :
    getKey gdoC7Out "package" = some (Value.str "myproj") ∧
    getKey gdoC7Out "project_path" = some (Value.path (PyPath.parse ".")) :=
  scenario_myproj_amended.1 testEnv [] [] gdoC7Out rfl
